import Mathlib

/-!
Verification of the rsocket-cpp connection core against its specification.

The development shallowly embeds the frame helpers of
`rsocket/framing/Frame.cpp` and the connection state machine declared in
`RSocketStateMachine.h`.  Functions whose bodies appear in the sources are
transcribed directly; operations whose bodies live outside the provided
sources (the RSocketStateMachine implementation file) are modelled from the
specification and marked as such in their doc comments.
-/

namespace RSocket

/-- Frame types of the RSocket protocol, the tagged sum used by
`Frame.cpp` and listed in the data model of the specification. -/
inductive FrameType
  | SETUP
  | LEASE
  | KEEPALIVE
  | REQUEST_RESPONSE
  | REQUEST_FNF
  | REQUEST_STREAM
  | REQUEST_CHANNEL
  | REQUEST_N
  | CANCEL
  | PAYLOAD
  | ERROR
  | METADATA_PUSH
  | RESUME
  | RESUME_OK
  | EXT
  deriving DecidableEq, Repr

/-- Stream interaction types, the result type of `getStreamType` in
`Frame.cpp`. -/
inductive StreamType
  | CHANNEL
  | STREAM
  | REQUEST_RESPONSE
  | FNF
  deriving DecidableEq, Repr

/-- Error codes carried by ERROR frames.  The constructor names are the ones
used by `Frame.cpp`; the numeric values are modelled from the spec
(ErrorCodes table), as the enum definition itself is not among the provided
sources. -/
inductive ErrorCode
  | INVALID_SETUP
  | UNSUPPORTED_SETUP
  | REJECTED_SETUP
  | REJECTED_RESUME
  | CONNECTION_ERROR
  | CONNECTION_CLOSE
  | APPLICATION_ERROR
  | REJECTED
  | CANCELED
  | INVALID
  deriving DecidableEq, Repr

/-- Modelled from the spec: the wire value of each error code. -/
def ErrorCode.value : ErrorCode → Nat
  | .INVALID_SETUP => 0x001
  | .UNSUPPORTED_SETUP => 0x002
  | .REJECTED_SETUP => 0x003
  | .REJECTED_RESUME => 0x004
  | .CONNECTION_ERROR => 0x101
  | .CONNECTION_CLOSE => 0x102
  | .APPLICATION_ERROR => 0x201
  | .REJECTED => 0x202
  | .CANCELED => 0x203
  | .INVALID => 0x204

/-- Payload carried by most frames: optional metadata and data.
`Payload{message}` in `Frame.cpp` builds a payload whose data is the message
and whose metadata is absent. -/
structure Payload where
  data : String
  metadata : Option String := none
  deriving DecidableEq, Repr

/-- ERROR frame: header stream id, error code and payload, as constructed by
the `Frame_ERROR` factories of `Frame.cpp`. -/
structure Frame_ERROR where
  streamId : Nat
  errorCode : ErrorCode
  payload : Payload
  deriving DecidableEq, Repr

/-- `Frame_ERROR::connectionErr`: an ERROR frame at stream id 0 with the
given code and the message as payload (`Frame.cpp`). -/
def Frame_ERROR.connectionErr (err : ErrorCode) (message : String) : Frame_ERROR :=
  { streamId := 0, errorCode := err, payload := { data := message } }

/-- `Frame_ERROR::invalidSetup` (`Frame.cpp`). -/
def Frame_ERROR.invalidSetup (message : String) : Frame_ERROR :=
  Frame_ERROR.connectionErr .INVALID_SETUP message

/-- `Frame_ERROR::unsupportedSetup` (`Frame.cpp`). -/
def Frame_ERROR.unsupportedSetup (message : String) : Frame_ERROR :=
  Frame_ERROR.connectionErr .UNSUPPORTED_SETUP message

/-- `Frame_ERROR::rejectedSetup` (`Frame.cpp`). -/
def Frame_ERROR.rejectedSetup (message : String) : Frame_ERROR :=
  Frame_ERROR.connectionErr .REJECTED_SETUP message

/-- `Frame_ERROR::rejectedResume` (`Frame.cpp`). -/
def Frame_ERROR.rejectedResume (message : String) : Frame_ERROR :=
  Frame_ERROR.connectionErr .REJECTED_RESUME message

/-- `Frame_ERROR::connectionError` (`Frame.cpp`). -/
def Frame_ERROR.connectionError (message : String) : Frame_ERROR :=
  Frame_ERROR.connectionErr .CONNECTION_ERROR message

/-- `Frame_ERROR::streamErr` (`Frame.cpp`): throws `std::invalid_argument`
for stream id 0, otherwise builds the ERROR frame at the given stream.  The
C++ exception is modelled as the error branch of `Except`. -/
def Frame_ERROR.streamErr (err : ErrorCode) (message : String) (stream : Nat) :
    Except String Frame_ERROR :=
  if stream = 0 then
    .error "Can't make stream error for stream zero"
  else
    .ok { streamId := stream, errorCode := err, payload := { data := message } }

/-- `Frame_ERROR::applicationError` (`Frame.cpp`). -/
def Frame_ERROR.applicationError (stream : Nat) (message : String) :
    Except String Frame_ERROR :=
  Frame_ERROR.streamErr .APPLICATION_ERROR message stream

/-- `Frame_ERROR::rejected` (`Frame.cpp`). -/
def Frame_ERROR.rejected (stream : Nat) (message : String) :
    Except String Frame_ERROR :=
  Frame_ERROR.streamErr .REJECTED message stream

/-- `Frame_ERROR::canceled` (`Frame.cpp`). -/
def Frame_ERROR.canceled (stream : Nat) (message : String) :
    Except String Frame_ERROR :=
  Frame_ERROR.streamErr .CANCELED message stream

/-- `Frame_ERROR::invalid` (`Frame.cpp`). -/
def Frame_ERROR.invalid (stream : Nat) (message : String) :
    Except String Frame_ERROR :=
  Frame_ERROR.streamErr .INVALID message stream

/-- `getStreamType` (`Frame.cpp`): maps the four request frame types to
their stream types; any other frame type hits `LOG(FATAL)`, modelled as
`none`. -/
def getStreamType (frameType : FrameType) : Option StreamType :=
  if frameType = FrameType.REQUEST_STREAM then
    some .STREAM
  else if frameType = FrameType.REQUEST_CHANNEL then
    some .CHANNEL
  else if frameType = FrameType.REQUEST_RESPONSE then
    some .REQUEST_RESPONSE
  else if frameType = FrameType.REQUEST_FNF then
    some .FNF
  else
    none

/-- `isNewStreamFrame` (`Frame.cpp`). -/
def isNewStreamFrame (frameType : FrameType) : Bool :=
  frameType == FrameType.REQUEST_CHANNEL ||
    frameType == FrameType.REQUEST_STREAM ||
    frameType == FrameType.REQUEST_RESPONSE ||
    frameType == FrameType.REQUEST_FNF

/-- Protocol version pair, as built by `Frame_SETUP::moveToSetupPayload`. -/
structure ProtocolVersion where
  major : Nat
  minor : Nat
  deriving DecidableEq, Repr

/-- Modelled from the spec: the RESUME_ENABLE bit of the 10-bit frame-flag
word (the flag constants live in `Frame.h`, not among the provided
sources). -/
def FrameFlags.RESUME_ENABLE : Nat := 0x80

/-- Frame header `(streamId, type, flags)` as in the data model. -/
structure FrameHeader where
  frameType : FrameType
  flags : Nat
  streamId : Nat
  deriving DecidableEq, Repr

/-- SETUP frame fields used by `Frame_SETUP::moveToSetupPayload`
(`Frame.cpp`): version pair, mime types, resume token and payload. -/
structure Frame_SETUP where
  header : FrameHeader
  versionMajor : Nat
  versionMinor : Nat
  keepaliveTime : Nat
  maxLifetime : Nat
  token : List Nat
  metadataMimeType : String
  dataMimeType : String
  payload : Payload
  deriving DecidableEq, Repr

/-- Setup parameters populated by `Frame_SETUP::moveToSetupPayload`. -/
structure SetupParameters where
  metadataMimeType : String
  dataMimeType : String
  payload : Payload
  token : List Nat
  resumable : Bool
  protocolVersion : ProtocolVersion
  deriving DecidableEq, Repr

/-- `Frame_SETUP::moveToSetupPayload` (`Frame.cpp`): moves the frame fields
into the given `SetupParameters`; `resumable` is the boolean test of the
RESUME_ENABLE flag bit, `protocolVersion` is the frame's version pair. -/
def Frame_SETUP.moveToSetupPayload (f : Frame_SETUP) (setupPayload : SetupParameters) :
    SetupParameters :=
  { setupPayload with
    metadataMimeType := f.metadataMimeType
    dataMimeType := f.dataMimeType
    payload := f.payload
    token := f.token
    resumable := f.header.flags &&& FrameFlags.RESUME_ENABLE != 0
    protocolVersion := { major := f.versionMajor, minor := f.versionMinor } }

/-! ## Connection state machine

The `RSocketStateMachine` implementation file is not among the provided
sources; only its header is.  The operations below are therefore modelled
from the specification (section 4.1 and the data model), using the member
names declared in the header (`isClosed_`, `isResumable_`, `streams_`,
`streamFragments_`). -/

/-- Client/server mode of the state machine (`RSocketMode`). -/
inductive RSocketMode
  | SERVER
  | CLIENT
  deriving DecidableEq, Repr

/-- Connection-level state, from the data model of the spec:
`{Disconnected, Connecting, Connected, Resuming, Closed}`. -/
inductive ConnectionState
  | Disconnected
  | Connecting
  | Connected
  | Resuming
  | Closed
  deriving DecidableEq, Repr

/-- Terminal signals delivered to stream state machines, from the spec's
stream state machine contract. -/
inductive StreamCompletionSignal
  | CompleteSignal
  | ApplicationError
  | CancelError
  | ConnectionError
  | StreamError
  | InvalidError
  deriving DecidableEq, Repr

/-- A decoded inbound or outbound frame as the router sees it: stream id,
frame type, FOLLOWS flag and payload. -/
structure Frame where
  streamId : Nat
  frameType : FrameType
  follows : Bool
  payload : Payload
  deriving DecidableEq, Repr

/-- Modelled from the spec: the per-stream fragment accumulator holds the
original request frame type and the accumulated payload fragments. -/
structure StreamFragmentAccumulator where
  frameType : FrameType
  fragments : List Payload
  deriving DecidableEq, Repr

/-- Association-list lookup keyed by stream id, modelling
`std::unordered_map::find`. -/
def lookupA {α : Type} : List (Nat × α) → Nat → Option α
  | [], _ => none
  | p :: rest, id => if p.fst = id then some p.snd else lookupA rest id

/-- Association-list erase keyed by stream id, modelling
`std::unordered_map::erase`. -/
def eraseA {α : Type} : List (Nat × α) → Nat → List (Nat × α)
  | [], _ => []
  | p :: rest, id => if p.fst = id then eraseA rest id else p :: eraseA rest id

/-- Association-list insert-or-assign keyed by stream id. -/
def insertA {α : Type} (l : List (Nat × α)) (id : Nat) (v : α) : List (Nat × α) :=
  (id, v) :: eraseA l id

/-- State of the connection state machine: the fields declared in the
header that the verified claims depend on, plus the connection-level state
of the spec's data model and the pending outbound buffer of the writer. -/
structure StateMachine where
  mode : RSocketMode
  isResumable_ : Bool
  isClosed_ : Bool
  connState : ConnectionState
  streamFragments_ : List (Nat × StreamFragmentAccumulator)
  streams_ : List (Nat × StreamType)
  pendingFrames_ : List Frame
  deriving DecidableEq, Repr

/-- Freshly constructed state machine: open, not resumable, no transport,
both demux maps empty and nothing pending. -/
def initialState (mode : RSocketMode) : StateMachine :=
  { mode := mode
    isResumable_ := false
    isClosed_ := false
    connState := .Disconnected
    streamFragments_ := []
    streams_ := []
    pendingFrames_ := [] }

/-- Modelled from the spec: `close` — deliver the completion signal to every
stream, drop both demux maps, release the transport and move to the terminal
`Closed` state.  A second call on a closed machine is a no-op delivering no
signals.  Returns the signals delivered, one per live stream. -/
def close (s : StateMachine) (signal : StreamCompletionSignal) :
    StateMachine × List (Nat × StreamCompletionSignal) :=
  if s.isClosed_ then
    (s, [])
  else
    ({ s with
        isClosed_ := true
        connState := .Closed
        streams_ := []
        streamFragments_ := [] },
      s.streams_.map fun p => (p.fst, signal))

/-- Modelled from the spec: `close_with_error` — emit the ERROR frame at
stream id 0, then close signalling all streams with the connection-error
signal.  On an already closed machine nothing is emitted.  Returns the
emitted ERROR frames. -/
def closeWithError (s : StateMachine) (e : Frame_ERROR) :
    StateMachine × List Frame_ERROR :=
  if s.isClosed_ then
    (s, [])
  else
    ((close s .ConnectionError).1, [e])

/-- `deserializeFrameOrError` (transcribed from the header): attempt
`frameSerializer_->deserializeFrom`; on success return `true` together with
the decoded frame; on failure call
`closeWithError(Frame_ERROR::connectionError("Invalid frame"))` and return
`false`.  Deserialization is abstracted as a function from the buffer to an
optional frame. -/
def deserializeFrameOrError {TFrame : Type} (deserializeFrom : List Nat → Option TFrame)
    (s : StateMachine) (buf : List Nat) :
    Bool × Option TFrame × StateMachine × List Frame_ERROR :=
  match deserializeFrom buf with
  | some frame => (true, some frame, s, [])
  | none =>
      let r := closeWithError s (Frame_ERROR.connectionError "Invalid frame")
      (false, none, r.1, r.2)

/-- `endStreamInternal` (modelled from its header doc comment): remove the
stream entry, delivering the completion signal to it; idempotent, returning
`false` iff the stream has not been found. -/
def endStreamInternal (s : StateMachine) (streamId : Nat)
    (_signal : StreamCompletionSignal) : Bool × StateMachine :=
  match lookupA s.streams_ streamId with
  | none => (false, s)
  | some _ => (true, { s with streams_ := eraseA s.streams_ streamId })

/-- `addStream` (header contract): register a stream entry; no frames are
issued by this call.  Spec precondition: the id is neither reserved (0) nor
currently present in the demux tables. -/
def addStream (s : StateMachine) (id : Nat) (v : StreamType) : StateMachine :=
  if s.isClosed_ then s else { s with streams_ := insertA s.streams_ id v }

/-- Modelled from the spec: an inbound new-stream id must carry the remote
peer's parity — clients allocate odd ids, servers even. -/
def validRemoteStreamId (mode : RSocketMode) (id : Nat) : Bool :=
  match mode with
  | .SERVER => id % 2 == 1
  | .CLIENT => id % 2 == 0

/-- Modelled from the spec: routing steps 6 to 8 of `process_frame`, for an
id holding neither a stream entry nor an accumulator: a valid new-stream
frame creates an accumulator (FOLLOWS set) or the stream itself (FOLLOWS
clear); `CANCEL`, `ERROR`, `REQUEST_N` and `PAYLOAD` for an unknown id are
silently discarded; anything else closes the connection with
`CONNECTION_ERROR`. -/
def handleUnknownStream (s : StateMachine) (f : Frame) : StateMachine :=
  if isNewStreamFrame f.frameType && validRemoteStreamId s.mode f.streamId then
    if f.follows then
      { s with
          streamFragments_ :=
            insertA s.streamFragments_ f.streamId
              { frameType := f.frameType, fragments := [f.payload] } }
    else
      match getStreamType f.frameType with
      | some st => { s with streams_ := insertA s.streams_ f.streamId st }
      | none => s
  else if f.frameType == .CANCEL || f.frameType == .ERROR ||
      f.frameType == .REQUEST_N || f.frameType == .PAYLOAD then
    s
  else
    (closeWithError s (Frame_ERROR.connectionError "unknown stream")).1

/-- Modelled from the spec: routing step 5 of `process_frame` — append the
fragment to the accumulator; when FOLLOWS clears, synthesize the complete
request, drop the accumulator and create the stream for it. -/
def handleFollowsFrame (s : StateMachine) (f : Frame)
    (acc : StreamFragmentAccumulator) : StateMachine :=
  if f.follows then
    { s with
        streamFragments_ :=
          insertA s.streamFragments_ f.streamId
            { acc with fragments := acc.fragments ++ [f.payload] } }
  else
    match getStreamType acc.frameType with
    | some st =>
        { s with
            streamFragments_ := eraseA s.streamFragments_ f.streamId
            streams_ := insertA s.streams_ f.streamId st }
    | none => s

/-- Modelled from the spec: connection-frame handling for stream id 0 —
KEEPALIVE, METADATA_PUSH, LEASE and EXT leave the demux state unchanged; an
inbound ERROR is fatal and closes all streams; RESUME_OK acknowledges an
in-progress resumption; SETUP, RESUME and any stream-only frame on an
established connection are protocol violations and close the connection. -/
def handleConnectionFrame (s : StateMachine) (f : Frame) : StateMachine :=
  match f.frameType with
  | .KEEPALIVE => s
  | .METADATA_PUSH => s
  | .LEASE => s
  | .EXT => s
  | .ERROR => (close s .ConnectionError).1
  | .RESUME_OK =>
      if s.connState = .Resuming then
        { s with connState := .Connected }
      else
        (closeWithError s (Frame_ERROR.connectionError "protocol violation")).1
  | _ => (closeWithError s (Frame_ERROR.connectionError "protocol violation")).1

/-- Modelled from the spec: inbound frame routing (`process_frame` steps 3
to 8; header decode and version autodetection happen before this routing
and are modelled by `deserializeFrameOrError`).  Stream id 0 goes to the
connection handler; an existing stream entry receives the frame; an
existing accumulator absorbs it; otherwise the unknown-stream policy
applies.  A closed machine ignores everything. -/
def processFrame (s : StateMachine) (f : Frame) : StateMachine :=
  if s.isClosed_ then s
  else if f.streamId = 0 then handleConnectionFrame s f
  else
    match lookupA s.streams_ f.streamId with
    | some _ => s
    | none =>
        match lookupA s.streamFragments_ f.streamId with
        | some acc => handleFollowsFrame s f acc
        | none => handleUnknownStream s f

/-- `shouldQueue` (modelled from the spec's outbound writer contract):
buffer while the connection state is `Disconnected` or `Resuming`, unless
the frame being written is itself a RESUME control frame. -/
def shouldQueue (s : StateMachine) (f : Frame) : Bool :=
  match s.connState with
  | .Disconnected => !(f.frameType == .RESUME)
  | .Resuming => !(f.frameType == .RESUME)
  | _ => false

/-- Modelled from the spec: `writeFrame` — buffer the frame at the back of
the pending queue when `shouldQueue` holds, otherwise send it through the
transport (the sent frames are the second component).  A closed machine
drops the frame. -/
def writeFrame (s : StateMachine) (f : Frame) : StateMachine × List Frame :=
  if s.isClosed_ then
    (s, [])
  else if shouldQueue s f then
    ({ s with pendingFrames_ := s.pendingFrames_ ++ [f] }, [])
  else
    (s, [f])

/-- Modelled from the spec: `sendPendingFrames` — drain the pending buffer
in FIFO order upon transition to `Connected`. -/
def sendPendingFrames (s : StateMachine) : StateMachine × List Frame :=
  if s.isClosed_ then (s, []) else ({ s with pendingFrames_ := [] }, s.pendingFrames_)

/-- Modelled from the spec: `connect_client` — attach the transport, emit
SETUP and move to `Connected` upon successful send. -/
def connectClient (s : StateMachine) : StateMachine :=
  if s.isClosed_ then s else { s with connState := .Connected }

/-- Modelled from the spec: `connect_server` — apply the received SETUP
parameters and move to `Connected`. -/
def connectServer (s : StateMachine) : StateMachine :=
  if s.isClosed_ then s else { s with connState := .Connected }

/-- Modelled from the spec: `resume_client` — emit RESUME and move to
`Resuming`. -/
def resumeClient (s : StateMachine) : StateMachine :=
  if s.isClosed_ then s else { s with connState := .Resuming }

/-- Modelled from the spec: `disconnect` — if resumable, detach the
transport keeping streams intact (state `Disconnected`); otherwise
equivalent to close. -/
def disconnect (s : StateMachine) : StateMachine :=
  if s.isClosed_ then s
  else if s.isResumable_ then { s with connState := .Disconnected }
  else (close s .ConnectionError).1

/-- `setResumable` (header): record whether the connection is resumable. -/
def setResumable (s : StateMachine) (b : Bool) : StateMachine :=
  if s.isClosed_ then s else { s with isResumable_ := b }

/-- One step of the connection state machine: any of its operations, applied
with the spec's preconditions.  `addStream` requires its header
precondition: the id is neither reserved nor present in either demux
table. -/
inductive Step : StateMachine → StateMachine → Prop
  | processFrame (s : StateMachine) (f : Frame) : Step s (processFrame s f)
  | addStream (s : StateMachine) (id : Nat) (v : StreamType)
      (h0 : id ≠ 0)
      (h1 : lookupA s.streams_ id = none)
      (h2 : lookupA s.streamFragments_ id = none) :
      Step s (addStream s id v)
  | endStreamInternal (s : StateMachine) (id : Nat) (sig : StreamCompletionSignal) :
      Step s (endStreamInternal s id sig).2
  | close (s : StateMachine) (sig : StreamCompletionSignal) :
      Step s (close s sig).1
  | closeWithError (s : StateMachine) (e : Frame_ERROR) :
      Step s (closeWithError s e).1
  | disconnect (s : StateMachine) : Step s (disconnect s)
  | connectClient (s : StateMachine) : Step s (connectClient s)
  | connectServer (s : StateMachine) : Step s (connectServer s)
  | resumeClient (s : StateMachine) : Step s (resumeClient s)
  | writeFrame (s : StateMachine) (f : Frame) : Step s (writeFrame s f).1
  | sendPendingFrames (s : StateMachine) : Step s (sendPendingFrames s).1
  | setResumable (s : StateMachine) (b : Bool) : Step s (setResumable s b)

/-- A state is reachable when some sequence of operations produces it from a
freshly constructed machine. -/
def Reachable (s : StateMachine) : Prop :=
  ∃ mode, Relation.ReflTransGen Step (initialState mode) s

/-- Demux exclusivity: for every stream id other than 0, at most one of the
stream map and the fragment accumulator map holds an entry. -/
def demuxExclusive (s : StateMachine) : Prop :=
  ∀ id : Nat, id ≠ 0 →
    lookupA s.streams_ id = none ∨ lookupA s.streamFragments_ id = none

/-! ## Association-list lemmas -/

theorem lookupA_eraseA {α : Type} (l : List (Nat × α)) (id j : Nat) :
    lookupA (eraseA l id) j = if j = id then none else lookupA l j := by
  induction l with
  | nil => simp [lookupA, eraseA]
  | cons p rest ih =>
      by_cases hp : p.fst = id
      · by_cases hj : j = id
        · subst hj
          simp [eraseA, lookupA, hp, ih]
        · have hij : ¬ id = j := fun h => hj h.symm
          simp [eraseA, lookupA, hp, hj, hij, ih]
      · by_cases hpj : p.fst = j
        · have hj : ¬ j = id := by
            intro h
            exact hp (hpj.trans h)
          simp [eraseA, lookupA, hp, hpj, hj]
        · simp [eraseA, lookupA, hp, hpj, ih]

theorem lookupA_insertA {α : Type} (l : List (Nat × α)) (id j : Nat) (v : α) :
    lookupA (insertA l id v) j = if j = id then some v else lookupA l j := by
  by_cases hj : j = id
  · simp [insertA, lookupA, hj]
  · have hij : ¬ id = j := fun h => hj h.symm
    simp [insertA, lookupA, hij, hj, lookupA_eraseA]

/-! ## Preservation of demux exclusivity -/

theorem demuxExclusive_close (s : StateMachine) (sig : StreamCompletionSignal)
    (h : demuxExclusive s) : demuxExclusive (close s sig).1 := by
  unfold close
  split
  · exact h
  · intro id hid
    simp [lookupA]

theorem demuxExclusive_closeWithError (s : StateMachine) (e : Frame_ERROR)
    (h : demuxExclusive s) : demuxExclusive (closeWithError s e).1 := by
  unfold closeWithError
  split
  · exact h
  · exact demuxExclusive_close s .ConnectionError h

theorem demuxExclusive_handleConnectionFrame (s : StateMachine) (f : Frame)
    (h : demuxExclusive s) : demuxExclusive (handleConnectionFrame s f) := by
  unfold handleConnectionFrame
  split
  any_goals exact h
  · exact demuxExclusive_close s .ConnectionError h
  · split
    · exact h
    · exact demuxExclusive_closeWithError s _ h
  · exact demuxExclusive_closeWithError s _ h

theorem demuxExclusive_handleUnknownStream (s : StateMachine) (f : Frame)
    (h : demuxExclusive s)
    (h1 : lookupA s.streams_ f.streamId = none)
    (h2 : lookupA s.streamFragments_ f.streamId = none) :
    demuxExclusive (handleUnknownStream s f) := by
  unfold handleUnknownStream
  split
  · split
    · -- FOLLOWS set: a fresh accumulator is inserted; the stream map is
      -- untouched and holds nothing at this id.
      intro id hid
      by_cases hidf : id = f.streamId
      · subst hidf
        left
        exact h1
      · simpa [lookupA_insertA, hidf] using h id hid
    · -- FOLLOWS clear: the stream is created; the fragment map is untouched
      -- and holds nothing at this id.
      split
      · intro id hid
        by_cases hidf : id = f.streamId
        · subst hidf
          right
          exact h2
        · simpa [lookupA_insertA, hidf] using h id hid
      · exact h
  · split
    · exact h
    · exact demuxExclusive_closeWithError s _ h

theorem demuxExclusive_handleFollowsFrame (s : StateMachine) (f : Frame)
    (acc : StreamFragmentAccumulator) (h : demuxExclusive s)
    (h1 : lookupA s.streams_ f.streamId = none) :
    demuxExclusive (handleFollowsFrame s f acc) := by
  unfold handleFollowsFrame
  split
  · -- FOLLOWS still set: the accumulator is updated in place and the
    -- stream map is untouched.
    intro id hid
    by_cases hidf : id = f.streamId
    · subst hidf
      left
      exact h1
    · simpa [lookupA_insertA, hidf] using h id hid
  · split
    · -- assembly complete: the accumulator is removed as the stream is
      -- created.
      intro id hid
      by_cases hidf : id = f.streamId
      · subst hidf
        right
        simp [lookupA_eraseA]
      · simpa [lookupA_insertA, lookupA_eraseA, hidf] using h id hid
    · exact h

theorem demuxExclusive_processFrame (s : StateMachine) (f : Frame)
    (h : demuxExclusive s) : demuxExclusive (processFrame s f) := by
  unfold processFrame
  split
  · exact h
  · split
    · exact demuxExclusive_handleConnectionFrame s f h
    · split
      · exact h
      · next hstream =>
          split
          · next acc hfrag =>
              exact demuxExclusive_handleFollowsFrame s f acc h hstream
          · next hfrag =>
              exact demuxExclusive_handleUnknownStream s f h hstream hfrag

theorem demuxExclusive_addStream (s : StateMachine) (id : Nat) (v : StreamType)
    (h : demuxExclusive s)
    (h2 : lookupA s.streamFragments_ id = none) :
    demuxExclusive (addStream s id v) := by
  unfold addStream
  split
  · exact h
  · intro j hj
    by_cases hji : j = id
    · subst hji
      right
      exact h2
    · simpa [lookupA_insertA, hji] using h j hj

theorem demuxExclusive_endStreamInternal (s : StateMachine) (id : Nat)
    (sig : StreamCompletionSignal) (h : demuxExclusive s) :
    demuxExclusive (endStreamInternal s id sig).2 := by
  unfold endStreamInternal
  split
  · exact h
  · intro j hj
    by_cases hji : j = id
    · subst hji
      left
      simp [lookupA_eraseA]
    · simpa [lookupA_eraseA, hji] using h j hj

theorem demuxExclusive_disconnect (s : StateMachine) (h : demuxExclusive s) :
    demuxExclusive (disconnect s) := by
  unfold disconnect
  split
  · exact h
  · split
    · exact h
    · exact demuxExclusive_close s .ConnectionError h

/-- Every operation of the connection state machine preserves demux
exclusivity. -/
theorem demuxExclusive_step (s s' : StateMachine) (hstep : Step s s')
    (h : demuxExclusive s) : demuxExclusive s' := by
  cases hstep with
  | processFrame f => exact demuxExclusive_processFrame s f h
  | addStream id v h0 h1 h2 => exact demuxExclusive_addStream s id v h h2
  | endStreamInternal id sig => exact demuxExclusive_endStreamInternal s id sig h
  | close sig => exact demuxExclusive_close s sig h
  | closeWithError e => exact demuxExclusive_closeWithError s e h
  | disconnect => exact demuxExclusive_disconnect s h
  | connectClient =>
      unfold connectClient
      split <;> exact h
  | connectServer =>
      unfold connectServer
      split <;> exact h
  | resumeClient =>
      unfold resumeClient
      split <;> exact h
  | writeFrame f =>
      unfold writeFrame
      split
      · exact h
      · split <;> exact h
  | sendPendingFrames =>
      unfold sendPendingFrames
      split <;> exact h
  | setResumable b =>
      unfold setResumable
      split <;> exact h

/-- Every operation of the connection state machine leaves a closed machine
closed and does not change its connection-level state. -/
theorem step_preserves_closed (s s' : StateMachine) (hstep : Step s s')
    (h : s.isClosed_ = true) :
    s'.isClosed_ = true ∧ s'.connState = s.connState := by
  cases hstep with
  | processFrame f => simp [processFrame, h]
  | addStream id v h0 h1 h2 => simp [addStream, h]
  | endStreamInternal id sig =>
      unfold endStreamInternal
      split <;> exact ⟨h, rfl⟩
  | close sig => simp [close, h]
  | closeWithError e => simp [closeWithError, h]
  | disconnect => simp [disconnect, h]
  | connectClient => simp [connectClient, h]
  | connectServer => simp [connectServer, h]
  | resumeClient => simp [resumeClient, h]
  | writeFrame f => simp [writeFrame, h]
  | sendPendingFrames => simp [sendPendingFrames, h]
  | setResumable b => simp [setResumable, h]

/-! ## Claim theorems -/

/-- C1: for every inbound buffer, `deserializeFrameOrError` returns `true`
exactly when the serializer deserializes the buffer into the frame, leaving
the machine untouched and emitting nothing; otherwise it closes the
connection by emitting `ERROR(CONNECTION_ERROR)` with message
"Invalid frame" (nothing is emitted if the machine was already closed) and
returns `false`.  No other outcome is possible. -/
theorem deserializeFrameOrError_spec {TFrame : Type}
    (deserializeFrom : List Nat → Option TFrame) (s : StateMachine)
    (buf : List Nat) :
    (∃ fr, deserializeFrom buf = some fr ∧
        deserializeFrameOrError deserializeFrom s buf = (true, some fr, s, [])) ∨
      (deserializeFrom buf = none ∧
        (deserializeFrameOrError deserializeFrom s buf).1 = false ∧
        (deserializeFrameOrError deserializeFrom s buf).2.2.1.isClosed_ = true ∧
        (deserializeFrameOrError deserializeFrom s buf).2.2.2 =
          (if s.isClosed_ = true then []
            else [Frame_ERROR.connectionError "Invalid frame"]) ∧
        Frame_ERROR.connectionError "Invalid frame" =
          { streamId := 0, errorCode := .CONNECTION_ERROR,
            payload := { data := "Invalid frame", metadata := none } }) := by
  cases hd : deserializeFrom buf with
  | some fr =>
      left
      exact ⟨fr, rfl, by simp [deserializeFrameOrError, hd]⟩
  | none =>
      right
      refine ⟨rfl, ?_, ?_, ?_, rfl⟩
      · simp [deserializeFrameOrError, hd]
      · by_cases hcl : s.isClosed_ = true
        · simp [deserializeFrameOrError, hd, closeWithError, hcl]
        · simp [deserializeFrameOrError, hd, closeWithError, close, hcl]
      · by_cases hcl : s.isClosed_ = true
        · simp [deserializeFrameOrError, hd, closeWithError, hcl]
        · simp [deserializeFrameOrError, hd, closeWithError, hcl]

/-- C2: in every reachable state of the connection state machine, for every
stream id other than 0, at most one of the stream map `streams_` and the
fragment accumulator map `streamFragments_` holds an entry for that id. -/
theorem demux_exclusive_invariant (s : StateMachine) (h : Reachable s) :
    demuxExclusive s := by
  obtain ⟨mode, hsteps⟩ := h
  induction hsteps with
  | refl =>
      intro id hid
      left
      rfl
  | tail _ hbc ih => exact demuxExclusive_step _ _ hbc ih

/-- A state reached by one routing step from a fresh server machine: the
arrival of an unfragmented REQUEST_STREAM on stream 1 creates the stream
entry. -/
def exampleReached : StateMachine :=
  processFrame (initialState RSocketMode.SERVER)
    { streamId := 1, frameType := .REQUEST_STREAM, follows := false,
      payload := { data := "d" } }

theorem demux_exclusive_invariant_witness :
    Reachable exampleReached ∧ demuxExclusive exampleReached :=
  ⟨⟨RSocketMode.SERVER,
      Relation.ReflTransGen.tail Relation.ReflTransGen.refl
        (Step.processFrame (initialState RSocketMode.SERVER)
          { streamId := 1, frameType := .REQUEST_STREAM, follows := false,
            payload := { data := "d" } })⟩,
    demux_exclusive_invariant exampleReached
      ⟨RSocketMode.SERVER,
        Relation.ReflTransGen.tail Relation.ReflTransGen.refl
          (Step.processFrame (initialState RSocketMode.SERVER)
            { streamId := 1, frameType := .REQUEST_STREAM, follows := false,
              payload := { data := "d" } })⟩⟩

/-- C3: each named error-frame factory produces an ERROR frame with exactly
the spec's error code and stream id — the connection-level factories at
stream id 0 with codes 0x001, 0x002, 0x003, 0x004 and 0x101, and the
stream-level factories at the given nonzero stream id with codes 0x201,
0x202, 0x203 and 0x204 — carrying the message as payload. -/
theorem error_frame_factories_spec (message : String) (s : Nat) (hs : s ≠ 0) :
    Frame_ERROR.invalidSetup message =
        { streamId := 0, errorCode := .INVALID_SETUP,
          payload := { data := message } } ∧
      ErrorCode.INVALID_SETUP.value = 0x001 ∧
      Frame_ERROR.unsupportedSetup message =
        { streamId := 0, errorCode := .UNSUPPORTED_SETUP,
          payload := { data := message } } ∧
      ErrorCode.UNSUPPORTED_SETUP.value = 0x002 ∧
      Frame_ERROR.rejectedSetup message =
        { streamId := 0, errorCode := .REJECTED_SETUP,
          payload := { data := message } } ∧
      ErrorCode.REJECTED_SETUP.value = 0x003 ∧
      Frame_ERROR.rejectedResume message =
        { streamId := 0, errorCode := .REJECTED_RESUME,
          payload := { data := message } } ∧
      ErrorCode.REJECTED_RESUME.value = 0x004 ∧
      Frame_ERROR.connectionError message =
        { streamId := 0, errorCode := .CONNECTION_ERROR,
          payload := { data := message } } ∧
      ErrorCode.CONNECTION_ERROR.value = 0x101 ∧
      Frame_ERROR.applicationError s message =
        .ok { streamId := s, errorCode := .APPLICATION_ERROR,
              payload := { data := message } } ∧
      ErrorCode.APPLICATION_ERROR.value = 0x201 ∧
      Frame_ERROR.rejected s message =
        .ok { streamId := s, errorCode := .REJECTED,
              payload := { data := message } } ∧
      ErrorCode.REJECTED.value = 0x202 ∧
      Frame_ERROR.canceled s message =
        .ok { streamId := s, errorCode := .CANCELED,
              payload := { data := message } } ∧
      ErrorCode.CANCELED.value = 0x203 ∧
      Frame_ERROR.invalid s message =
        .ok { streamId := s, errorCode := .INVALID,
              payload := { data := message } } ∧
      ErrorCode.INVALID.value = 0x204 := by
  refine ⟨rfl, rfl, rfl, rfl, rfl, rfl, rfl, rfl, rfl, rfl, ?_, rfl, ?_, rfl,
    ?_, rfl, ?_, rfl⟩ <;>
    simp [Frame_ERROR.applicationError, Frame_ERROR.rejected,
      Frame_ERROR.canceled, Frame_ERROR.invalid, Frame_ERROR.streamErr, hs]

theorem error_frame_factories_spec_witness :
    (1 : Nat) ≠ 0 ∧
      (Frame_ERROR.invalidSetup "oops" =
          { streamId := 0, errorCode := .INVALID_SETUP,
            payload := { data := "oops" } } ∧
        ErrorCode.INVALID_SETUP.value = 0x001 ∧
        Frame_ERROR.unsupportedSetup "oops" =
          { streamId := 0, errorCode := .UNSUPPORTED_SETUP,
            payload := { data := "oops" } } ∧
        ErrorCode.UNSUPPORTED_SETUP.value = 0x002 ∧
        Frame_ERROR.rejectedSetup "oops" =
          { streamId := 0, errorCode := .REJECTED_SETUP,
            payload := { data := "oops" } } ∧
        ErrorCode.REJECTED_SETUP.value = 0x003 ∧
        Frame_ERROR.rejectedResume "oops" =
          { streamId := 0, errorCode := .REJECTED_RESUME,
            payload := { data := "oops" } } ∧
        ErrorCode.REJECTED_RESUME.value = 0x004 ∧
        Frame_ERROR.connectionError "oops" =
          { streamId := 0, errorCode := .CONNECTION_ERROR,
            payload := { data := "oops" } } ∧
        ErrorCode.CONNECTION_ERROR.value = 0x101 ∧
        Frame_ERROR.applicationError 1 "oops" =
          .ok { streamId := 1, errorCode := .APPLICATION_ERROR,
                payload := { data := "oops" } } ∧
        ErrorCode.APPLICATION_ERROR.value = 0x201 ∧
        Frame_ERROR.rejected 1 "oops" =
          .ok { streamId := 1, errorCode := .REJECTED,
                payload := { data := "oops" } } ∧
        ErrorCode.REJECTED.value = 0x202 ∧
        Frame_ERROR.canceled 1 "oops" =
          .ok { streamId := 1, errorCode := .CANCELED,
                payload := { data := "oops" } } ∧
        ErrorCode.CANCELED.value = 0x203 ∧
        Frame_ERROR.invalid 1 "oops" =
          .ok { streamId := 1, errorCode := .INVALID,
                payload := { data := "oops" } } ∧
        ErrorCode.INVALID.value = 0x204) :=
  ⟨by decide, error_frame_factories_spec "oops" 1 (by decide)⟩

/-- C4: every stream-level error constructor — `applicationError`,
`rejected`, `canceled`, `invalid` and the common `streamErr` helper —
invoked with stream id 0 reports a typed invalid-argument error and
constructs no frame. -/
theorem stream_error_factories_reject_zero (err : ErrorCode) (message : String) :
    Frame_ERROR.streamErr err message 0 =
        .error "Can't make stream error for stream zero" ∧
      Frame_ERROR.applicationError 0 message =
        .error "Can't make stream error for stream zero" ∧
      Frame_ERROR.rejected 0 message =
        .error "Can't make stream error for stream zero" ∧
      Frame_ERROR.canceled 0 message =
        .error "Can't make stream error for stream zero" ∧
      Frame_ERROR.invalid 0 message =
        .error "Can't make stream error for stream zero" :=
  ⟨rfl, rfl, rfl, rfl, rfl⟩

/-- C5: the `Closed` connection state is terminal — both `close` and
`closeWithError` leave `isClosed_` true on any machine, and once a machine
is closed no sequence of operations reverts `isClosed_` to false or moves
the connection out of its (Closed) state. -/
theorem closed_state_is_terminal (t s s' : StateMachine)
    (sig : StreamCompletionSignal) (e : Frame_ERROR)
    (hreach : Relation.ReflTransGen Step s s') (hclosed : s.isClosed_ = true) :
    (close t sig).1.isClosed_ = true ∧
      (closeWithError t e).1.isClosed_ = true ∧
      s'.isClosed_ = true ∧ s'.connState = s.connState := by
  have hclose : ∀ (u : StateMachine) (sg : StreamCompletionSignal),
      (close u sg).1.isClosed_ = true := by
    intro u sg
    unfold close
    split
    · assumption
    · rfl
  refine ⟨hclose t sig, ?_, ?_⟩
  · unfold closeWithError
    split
    · assumption
    · exact hclose t .ConnectionError
  · induction hreach with
    | refl => exact ⟨hclosed, rfl⟩
    | tail _ hbc ih =>
        obtain ⟨ih1, ih2⟩ := ih
        obtain ⟨h1, h2⟩ := step_preserves_closed _ _ hbc ih1
        exact ⟨h1, h2.trans ih2⟩

/-- A machine closed right after construction, used to witness the terminal
property of the `Closed` state. -/
def closedExample : StateMachine :=
  (close (initialState RSocketMode.CLIENT) StreamCompletionSignal.CompleteSignal).1

theorem closed_state_is_terminal_witness :
    Relation.ReflTransGen Step closedExample closedExample ∧
      closedExample.isClosed_ = true ∧
      ((close (initialState RSocketMode.CLIENT)
            StreamCompletionSignal.ConnectionError).1.isClosed_ = true ∧
        (closeWithError (initialState RSocketMode.CLIENT)
            (Frame_ERROR.connectionError "gone")).1.isClosed_ = true ∧
        closedExample.isClosed_ = true ∧
        closedExample.connState = closedExample.connState) :=
  ⟨Relation.ReflTransGen.refl, rfl,
    closed_state_is_terminal (initialState RSocketMode.CLIENT) closedExample
      closedExample StreamCompletionSignal.ConnectionError
      (Frame_ERROR.connectionError "gone") Relation.ReflTransGen.refl rfl⟩

/-- C6: `close` is idempotent — a second call returns the same state and
delivers no further signals — and `endStreamInternal` reports absence: it
returns `false` exactly when no stream entry exists for the id, and a
second call with the same id returns `false` leaving the state unchanged. -/
theorem close_idempotent_endStream_absent (s : StateMachine) (id : Nat)
    (sig sig2 : StreamCompletionSignal) :
    close (close s sig).1 sig2 = ((close s sig).1, []) ∧
      ((endStreamInternal s id sig).1 = false ↔ lookupA s.streams_ id = none) ∧
      endStreamInternal (endStreamInternal s id sig).2 id sig2 =
        (false, (endStreamInternal s id sig).2) := by
  refine ⟨?_, ?_, ?_⟩
  · by_cases hcl : s.isClosed_ = true
    · simp [close, hcl]
    · simp [close, hcl]
  · cases heq : lookupA s.streams_ id with
    | none => simp [endStreamInternal, heq]
    | some v => simp [endStreamInternal, heq]
  · cases heq : lookupA s.streams_ id with
    | none => simp [endStreamInternal, heq]
    | some v => simp [endStreamInternal, heq, lookupA_eraseA]

/-- C7: `shouldQueue` holds exactly when the connection state is
`Disconnected` or `Resuming` and the frame written is not itself a RESUME
control frame; `writeFrame` appends the frame to the pending queue exactly
when `shouldQueue` holds (sending it through the transport otherwise), and
`sendPendingFrames` drains the pending buffer in FIFO order, emptying it. -/
theorem shouldQueue_writeFrame_pending (s : StateMachine) (f : Frame)
    (hopen : s.isClosed_ = false) :
    (shouldQueue s f = true ↔
        ((s.connState = .Disconnected ∨ s.connState = .Resuming) ∧
          f.frameType ≠ .RESUME)) ∧
      ((writeFrame s f).1.pendingFrames_ = s.pendingFrames_ ++ [f] ↔
        shouldQueue s f = true) ∧
      (writeFrame s f).2 = (if shouldQueue s f then [] else [f]) ∧
      (sendPendingFrames s).2 = s.pendingFrames_ ∧
      (sendPendingFrames s).1.pendingFrames_ = [] := by
  refine ⟨?_, ?_, ?_, ?_, ?_⟩
  · unfold shouldQueue
    cases hc : s.connState <;> simp [beq_eq_false_iff_ne]
  · by_cases hq : shouldQueue s f = true
    · simp [writeFrame, hopen, hq]
    · simp [writeFrame, hopen, hq]
  · by_cases hq : shouldQueue s f = true
    · simp [writeFrame, hopen, hq]
    · simp [writeFrame, hopen, hq]
  · simp [sendPendingFrames, hopen]
  · simp [sendPendingFrames, hopen]

/-- A data frame used to witness the queueing behaviour of the writer. -/
def pendingFrameExample : Frame :=
  { streamId := 1, frameType := .PAYLOAD, follows := false,
    payload := { data := "d" } }

theorem shouldQueue_writeFrame_pending_witness :
    (initialState RSocketMode.CLIENT).isClosed_ = false ∧
      ((shouldQueue (initialState RSocketMode.CLIENT) pendingFrameExample = true ↔
          (((initialState RSocketMode.CLIENT).connState = .Disconnected ∨
              (initialState RSocketMode.CLIENT).connState = .Resuming) ∧
            pendingFrameExample.frameType ≠ .RESUME)) ∧
        ((writeFrame (initialState RSocketMode.CLIENT) pendingFrameExample).1.pendingFrames_ =
            (initialState RSocketMode.CLIENT).pendingFrames_ ++ [pendingFrameExample] ↔
          shouldQueue (initialState RSocketMode.CLIENT) pendingFrameExample = true) ∧
        (writeFrame (initialState RSocketMode.CLIENT) pendingFrameExample).2 =
          (if shouldQueue (initialState RSocketMode.CLIENT) pendingFrameExample
            then [] else [pendingFrameExample]) ∧
        (sendPendingFrames (initialState RSocketMode.CLIENT)).2 =
          (initialState RSocketMode.CLIENT).pendingFrames_ ∧
        (sendPendingFrames (initialState RSocketMode.CLIENT)).1.pendingFrames_ = []) :=
  ⟨rfl, shouldQueue_writeFrame_pending (initialState RSocketMode.CLIENT)
    pendingFrameExample rfl⟩

/-- C8: `isNewStreamFrame` returns `true` exactly for the four request
frame types REQUEST_CHANNEL, REQUEST_STREAM, REQUEST_RESPONSE and
REQUEST_FNF, and `false` for every other frame type. -/
theorem isNewStreamFrame_iff (ft : FrameType) :
    isNewStreamFrame ft = true ↔
      (ft = .REQUEST_CHANNEL ∨ ft = .REQUEST_STREAM ∨
        ft = .REQUEST_RESPONSE ∨ ft = .REQUEST_FNF) := by
  cases ft <;> decide

/-- C9: `moveToSetupPayload` produces setup parameters whose `resumable`
field holds exactly when the frame's RESUME_ENABLE flag bit is set, whose
protocol version is the frame's `(versionMajor, versionMinor)` pair, and
whose mime types, payload and token equal the frame's fields. -/
theorem moveToSetupPayload_spec (f : Frame_SETUP) (sp : SetupParameters) :
    ((f.moveToSetupPayload sp).resumable = true ↔
        f.header.flags &&& FrameFlags.RESUME_ENABLE ≠ 0) ∧
      (f.moveToSetupPayload sp).protocolVersion =
        { major := f.versionMajor, minor := f.versionMinor } ∧
      (f.moveToSetupPayload sp).metadataMimeType = f.metadataMimeType ∧
      (f.moveToSetupPayload sp).dataMimeType = f.dataMimeType ∧
      (f.moveToSetupPayload sp).payload = f.payload ∧
      (f.moveToSetupPayload sp).token = f.token := by
  refine ⟨?_, rfl, rfl, rfl, rfl, rfl⟩
  simp [Frame_SETUP.moveToSetupPayload, bne_iff_ne]

/-- C10: under the precondition `isNewStreamFrame frameType = true`,
`getStreamType` is total (the fatal branch is unreachable) and returns the
matching stream type for each of the four request frame types. -/
theorem getStreamType_total_on_new_stream (ft : FrameType)
    (h : isNewStreamFrame ft = true) :
    (getStreamType ft).isSome = true ∧
      (ft = .REQUEST_STREAM → getStreamType ft = some .STREAM) ∧
      (ft = .REQUEST_CHANNEL → getStreamType ft = some .CHANNEL) ∧
      (ft = .REQUEST_RESPONSE → getStreamType ft = some .REQUEST_RESPONSE) ∧
      (ft = .REQUEST_FNF → getStreamType ft = some .FNF) := by
  cases ft <;> first
    | exact absurd h (by decide)
    | decide

theorem getStreamType_total_on_new_stream_witness :
    isNewStreamFrame FrameType.REQUEST_STREAM = true ∧
      ((getStreamType FrameType.REQUEST_STREAM).isSome = true ∧
        (FrameType.REQUEST_STREAM = .REQUEST_STREAM →
          getStreamType FrameType.REQUEST_STREAM = some .STREAM) ∧
        (FrameType.REQUEST_STREAM = .REQUEST_CHANNEL →
          getStreamType FrameType.REQUEST_STREAM = some .CHANNEL) ∧
        (FrameType.REQUEST_STREAM = .REQUEST_RESPONSE →
          getStreamType FrameType.REQUEST_STREAM = some .REQUEST_RESPONSE) ∧
        (FrameType.REQUEST_STREAM = .REQUEST_FNF →
          getStreamType FrameType.REQUEST_STREAM = some .FNF)) :=
  ⟨by decide, getStreamType_total_on_new_stream FrameType.REQUEST_STREAM (by decide)⟩

end RSocket
